import Mathlib

/-!
Verification of the command-execution and verification layer of the
Anjaymabar Net Tools repository.

The Python sources embedded here are:
  src/utils/powershell.py  (command runner, registry secondary path)
  src/ui/smb_tab.py        (toggle handlers with write-then-verify flow)
  src/ui/network_tab.py    (adapter refresh with fallback query)

External effects (subprocess results, registry query output, JSON decoding)
are supplied as explicit inputs, so every function is a pure translation of
the corresponding Python control flow.
-/

set_option maxRecDepth 4000

/-- Character-list test: the first list is a leading segment of the second.
Used to embed the Python substring tests (the `in` operator on str). -/
def chStarts : List Char → List Char → Bool
  | [], _ => true
  | _ :: _, [] => false
  | a :: as, b :: bs => a == b && chStarts as bs

/-- Character-list substring test: the second list occurs contiguously in
the first. -/
def chHasSub : List Char → List Char → Bool
  | [], p => p.isEmpty
  | s@(_ :: rest), p => chStarts p s || chHasSub rest p

/-- Embedding of the Python `pat in s` substring test on strings. -/
def strContains (s pat : String) : Bool :=
  chHasSub s.data pat.data

/-- Embedding of the Python `str.strip()`: drop leading and trailing
whitespace characters. -/
def strip (s : String) : String :=
  String.mk (((s.data.dropWhile Char.isWhitespace).reverse.dropWhile
    Char.isWhitespace).reverse)

/-- Embedding of the Python `str.lower()`. -/
def strLower (s : String) : String :=
  String.mk (s.data.map Char.toLower)

/-- Result triple returned by every external command invocation
(powershell.py: the `Tuple[bool, str, str]` produced by
`run_powershell_command` and `run_cmd_command`). -/
structure CmdResult where
  success : Bool
  stdout : String
  stderr : String
  deriving DecidableEq

/-- Outcome of a `subprocess.run` call as observed by the runner:
a normal exit with a return code and optional captured streams, a
`TimeoutExpired`, a `FileNotFoundError` (carrying its text), or any
other exception (carrying its text). -/
inductive ProcOutcome where
  | exited (rc : Int) (out err : Option String)
  | timedOut
  | fileNotFound (msg : String)
  | otherError (msg : String)
  deriving DecidableEq

/-- Embedding of the Python `result.stdout.strip() if result.stdout else ""`:
a missing or empty stream becomes the empty string, otherwise it is
stripped. -/
def stripOpt (o : Option String) : String :=
  match o with
  | some s => if s == "" then "" else strip s
  | none => ""

/-- Embedding of `run_powershell_command` (powershell.py lines 16-64):
normal exit gives success = (return code == 0) with stripped streams;
`TimeoutExpired` gives the timeout message; `FileNotFoundError` has a
dedicated branch giving the PowerShell not-found message; any other
exception gives the generic error description. -/
def run_powershell_command (timeout : Nat) (o : ProcOutcome) : CmdResult :=
  match o with
  | ProcOutcome.exited rc out err =>
      { success := rc == 0, stdout := stripOpt out, stderr := stripOpt err }
  | ProcOutcome.timedOut =>
      { success := false, stdout := ""
        stderr := "Command timed out after " ++ toString timeout ++ " seconds" }
  | ProcOutcome.fileNotFound _ =>
      { success := false, stdout := ""
        stderr := "PowerShell not found on this system" }
  | ProcOutcome.otherError e =>
      { success := false, stdout := ""
        stderr := "Error executing command: " ++ e }

/-- Embedding of `run_cmd_command` (powershell.py lines 67-109): same shape
as the PowerShell runner, except that there is no dedicated
`FileNotFoundError` branch — a missing interpreter is caught by the generic
`except Exception` handler and produces the generic error description. -/
def run_cmd_command (timeout : Nat) (o : ProcOutcome) : CmdResult :=
  match o with
  | ProcOutcome.exited rc out err =>
      { success := rc == 0, stdout := stripOpt out, stderr := stripOpt err }
  | ProcOutcome.timedOut =>
      { success := false, stdout := ""
        stderr := "Command timed out after " ++ toString timeout ++ " seconds" }
  | ProcOutcome.fileNotFound e =>
      { success := false, stdout := ""
        stderr := "Error executing command: " ++ e }
  | ProcOutcome.otherError e =>
      { success := false, stdout := ""
        stderr := "Error executing command: " ++ e }

/-- Command line built by `set_registry_value` (powershell.py lines 112-133):
a `reg add` with `/f` to force overwrite without prompting. -/
def set_registry_value_cmd (key_path value_name : String) (value_data : Int)
    (value_type : String) : String :=
  "reg add \"" ++ key_path ++ "\" /v \"" ++ value_name ++ "\" /t " ++
    value_type ++ " /d " ++ toString value_data ++ " /f"

/-- Command line built by `get_registry_value` (powershell.py lines 136-148). -/
def get_registry_value_cmd (key_path value_name : String) : String :=
  "reg query \"" ++ key_path ++ "\" /v \"" ++ value_name ++ "\""

/-- Group Policy registry location used for the guest-logon setting
(powershell.py lines 188 and 247). -/
def guestGpoKeyPath : String :=
  "HKLM\\SOFTWARE\\Policies\\Microsoft\\Windows\\LanmanWorkstation"

/-- Local registry location used for the guest-logon setting
(powershell.py lines 190 and 248). -/
def guestNormalKeyPath : String :=
  "HKLM\\SYSTEM\\CurrentControlSet\\Services\\LanmanWorkstation\\Parameters"

/-- Registry value name used for the guest-logon setting. -/
def guestValueName : String := "AllowInsecureGuestAuth"

/-- The two `reg add` command lines issued by `set_smb_insecure_guest_auth`
(powershell.py lines 200-213): the GPO location first, then the local
location, both writing the boolean encoded as the integer 1 or 0. -/
def set_smb_guest_cmds (enabled : Bool) : List String :=
  [set_registry_value_cmd guestGpoKeyPath guestValueName
     (if enabled then 1 else 0) "REG_DWORD",
   set_registry_value_cmd guestNormalKeyPath guestValueName
     (if enabled then 1 else 0) "REG_DWORD"]

/-- Embedding of `set_smb_insecure_guest_auth` (powershell.py lines 170-230).
The two arguments `r1` and `r2` are the results of the two `reg add`
invocations (GPO location, then local location). -/
def set_smb_insecure_guest_auth (enabled : Bool) (r1 r2 : CmdResult) :
    CmdResult :=
  let value_data : Int := if enabled then 1 else 0
  let res1 : String :=
    if r1.success then "GPO registry set to " ++ toString value_data
    else "GPO registry failed: " ++ r1.stderr
  let res2 : String :=
    if r2.success then "Normal registry set to " ++ toString value_data
    else "Normal registry failed: " ++ r2.stderr
  let combined := res1 ++ "; " ++ res2
  if r1.success then { success := true, stdout := combined, stderr := "" }
  else if r2.success then
    { success := true, stdout := combined
      stderr := "GPO path not accessible, using normal registry only" }
  else { success := false, stdout := "", stderr := combined }

/-- The `reg query` command lines issued by `get_smb_insecure_guest_auth`
(powershell.py lines 233-288): the GPO location is queried first; the local
location is queried only when the GPO query does not succeed with an
`0x1` or `0x0` token in its output. -/
def get_smb_guest_cmds (gpo : CmdResult) : List String :=
  if gpo.success && (strContains gpo.stdout "0x1" || strContains gpo.stdout "0x0")
  then [get_registry_value_cmd guestGpoKeyPath guestValueName]
  else [get_registry_value_cmd guestGpoKeyPath guestValueName,
        get_registry_value_cmd guestNormalKeyPath guestValueName]

/-- Embedding of `get_smb_insecure_guest_auth` (powershell.py lines 233-288).
The arguments are the results of the `reg query` invocations on the GPO
location and the local location.  Returns (query success, current value,
error message). -/
def get_smb_insecure_guest_auth (gpo normal : CmdResult) :
    Bool × Bool × String :=
  if gpo.success && (strContains gpo.stdout "0x1" || strContains gpo.stdout "0x0")
  then
    if strContains gpo.stdout "0x1" then (true, true, "")
    else (true, false, "")
  else
    if normal.success then
      if strContains normal.stdout "0x1" then (true, true, "")
      else if strContains normal.stdout "0x0" then (true, false, "")
      else (true, false, "")
    else
      if strContains (strLower normal.stderr) "unable to find" ||
         strContains (strLower normal.stdout) "unable to find" then
        (true, false, "")
      else (false, false, normal.stderr)

/-- Boolean parse applied by the smb_tab.py handlers to a read-back value:
`verify_stdout.strip().lower() == "true"`. -/
def parseBool (s : String) : Bool :=
  strLower (strip s) == "true"

/-- Observable UI-layer events of a toggle handler run: an external command
being executed, or the toggle being set programmatically while the
`_loading` guard has the recorded value. -/
inductive Ev where
  | cmd (line : String)
  | setChecked (loadingFlag : Bool) (value : Bool)
  deriving DecidableEq

/-- Terminal outcome of one apply operation, as reported by the handler. -/
inductive ApplyOutcome where
  | applied
  | appliedUnverified
  | appliedRegistry
  | failed
  deriving DecidableEq

/-- A trace event is an invocation of the registry tool (a `reg ...`
command line). -/
def isRegistryCmd : Ev → Bool
  | Ev.cmd c => chStarts "reg ".data c.data
  | _ => false

/-- The secondary (registry) path was invoked during the trace. -/
def registryInvoked (t : List Ev) : Bool :=
  t.any isRegistryCmd

/-- A programmatic toggle set in the trace happened with the `_loading`
guard raised. -/
def isGuardedSet : Ev → Bool
  | Ev.setChecked f _ => f
  | _ => true

/-- Every programmatic toggle set in the trace happened with the `_loading`
guard raised. -/
def revertsGuarded (t : List Ev) : Bool :=
  t.all isGuardedSet

/-- Primary set command of `on_guest_toggle_changed` (smb_tab.py line 505). -/
def guestSetCmd (checked : Bool) : String :=
  "Set-SmbClientConfiguration -EnableInsecureGuestLogons " ++
    (if checked then "$true" else "$false") ++ " -Force -Confirm:$false"

/-- Verifying read command of `on_guest_toggle_changed` (smb_tab.py line 512). -/
def guestVerifyCmd : String :=
  "(Get-SmbClientConfiguration).EnableInsecureGuestLogons"

/-- Primary set command of `on_client_sig_toggle_changed` (smb_tab.py
line 587). -/
def clientSigSetCmd (checked : Bool) : String :=
  "Set-SmbClientConfiguration -RequireSecuritySignature " ++
    (if checked then "$true" else "$false") ++ " -Force -Confirm:$false"

/-- Verifying read command of `on_client_sig_toggle_changed` (smb_tab.py
line 592). -/
def clientSigVerifyCmd : String :=
  "(Get-SmbClientConfiguration).RequireSecuritySignature"

/-- Primary set command of `on_server_sig_toggle_changed` (smb_tab.py
line 646). -/
def serverSigSetCmd (checked : Bool) : String :=
  "Set-SmbServerConfiguration -RequireSecuritySignature " ++
    (if checked then "$true" else "$false") ++ " -Force -Confirm:$false"

/-- Verifying read command of `on_server_sig_toggle_changed` (smb_tab.py
line 651). -/
def serverSigVerifyCmd : String :=
  "(Get-SmbServerConfiguration).RequireSecuritySignature"

/-- External-world results consumed by one run of
`on_guest_toggle_changed`: the primary set result, the verifying read
result, the two registry write results and the two registry query
results. -/
structure GuestEnv where
  setRes : CmdResult
  verifyRes : CmdResult
  regWriteGpo : CmdResult
  regWriteNormal : CmdResult
  regReadGpo : CmdResult
  regReadNormal : CmdResult
  deriving DecidableEq

/-- Body of `on_guest_toggle_changed` (smb_tab.py lines 496-574), run with
the `_loading` guard not raised.  Mirrors the source control flow: the
primary set command is issued, then the verifying read is always issued
(the set result is only logged, never branched on); if the read succeeds
and reports the desired value the handler stops, otherwise it falls back
to the registry path of powershell.py, verifies through the registry
read, and on failure reverts the toggle under the `_loading` guard. -/
def guestTrace (checked : Bool) (env : GuestEnv) : List Ev × ApplyOutcome :=
  let t0 : List Ev := [Ev.cmd (guestSetCmd checked), Ev.cmd guestVerifyCmd]
  if env.verifyRes.success && (parseBool env.verifyRes.stdout == checked) then
    (t0, ApplyOutcome.applied)
  else
    let regT : List Ev := (set_smb_guest_cmds checked).map Ev.cmd
    let regRes := set_smb_insecure_guest_auth checked env.regWriteGpo env.regWriteNormal
    if regRes.success then
      let getT : List Ev := (get_smb_guest_cmds env.regReadGpo).map Ev.cmd
      let g := get_smb_insecure_guest_auth env.regReadGpo env.regReadNormal
      if g.1 && (g.2.1 == checked) then
        (t0 ++ regT ++ getT, ApplyOutcome.appliedRegistry)
      else
        (t0 ++ regT ++ getT ++ [Ev.setChecked true (!checked)], ApplyOutcome.failed)
    else
      (t0 ++ regT ++ [Ev.setChecked true (!checked)], ApplyOutcome.failed)

/-- Entry point of `on_guest_toggle_changed` (smb_tab.py lines 491-494):
when the `_loading` guard is raised the handler returns at once, issuing
no command and producing no outcome. -/
def on_guest_toggle_changed (loading checked : Bool) (env : GuestEnv) :
    Option (List Ev × ApplyOutcome) :=
  if loading then none else some (guestTrace checked env)

/-- External-world results consumed by one run of a signature-setting
handler: the primary set result and the verifying read result. -/
structure SigEnv where
  setRes : CmdResult
  verifyRes : CmdResult
  deriving DecidableEq

/-- Body of `on_client_sig_toggle_changed` (smb_tab.py lines 581-633), run
with the `_loading` guard not raised.  On primary set failure the handler
reverts the toggle (under the guard) and fails, with no secondary path; on
verification mismatch it sets the toggle to the reported value and fails;
on an unreadable verification value it assumes success. -/
def clientSigTrace (checked : Bool) (env : SigEnv) : List Ev × ApplyOutcome :=
  if env.setRes.success then
    if env.verifyRes.success then
      if parseBool env.verifyRes.stdout == checked then
        ([Ev.cmd (clientSigSetCmd checked), Ev.cmd clientSigVerifyCmd],
         ApplyOutcome.applied)
      else
        ([Ev.cmd (clientSigSetCmd checked), Ev.cmd clientSigVerifyCmd,
          Ev.setChecked true (parseBool env.verifyRes.stdout)],
         ApplyOutcome.failed)
    else
      ([Ev.cmd (clientSigSetCmd checked), Ev.cmd clientSigVerifyCmd],
       ApplyOutcome.appliedUnverified)
  else
    ([Ev.cmd (clientSigSetCmd checked), Ev.setChecked true (!checked)],
     ApplyOutcome.failed)

/-- Entry point of `on_client_sig_toggle_changed` (smb_tab.py lines
576-579): the `_loading` guard causes an immediate return. -/
def on_client_sig_toggle_changed (loading checked : Bool) (env : SigEnv) :
    Option (List Ev × ApplyOutcome) :=
  if loading then none else some (clientSigTrace checked env)

/-- Body of `on_server_sig_toggle_changed` (smb_tab.py lines 640-692):
identical control flow to the client-signature handler, with the server
configuration commands. -/
def serverSigTrace (checked : Bool) (env : SigEnv) : List Ev × ApplyOutcome :=
  if env.setRes.success then
    if env.verifyRes.success then
      if parseBool env.verifyRes.stdout == checked then
        ([Ev.cmd (serverSigSetCmd checked), Ev.cmd serverSigVerifyCmd],
         ApplyOutcome.applied)
      else
        ([Ev.cmd (serverSigSetCmd checked), Ev.cmd serverSigVerifyCmd,
          Ev.setChecked true (parseBool env.verifyRes.stdout)],
         ApplyOutcome.failed)
    else
      ([Ev.cmd (serverSigSetCmd checked), Ev.cmd serverSigVerifyCmd],
       ApplyOutcome.appliedUnverified)
  else
    ([Ev.cmd (serverSigSetCmd checked), Ev.setChecked true (!checked)],
     ApplyOutcome.failed)

/-- Entry point of `on_server_sig_toggle_changed` (smb_tab.py lines
635-638): the `_loading` guard causes an immediate return. -/
def on_server_sig_toggle_changed (loading checked : Bool) (env : SigEnv) :
    Option (List Ev × ApplyOutcome) :=
  if loading then none else some (serverSigTrace checked env)

/-- One adapter record as decoded from the JSON output of `Get-NetAdapter`
(network_tab.py lines 305-309 and 347-350). -/
structure AdapterJson where
  name : String
  interfaceDescription : String
  status : String
  macAddress : String
  deriving DecidableEq

/-- Decoded JSON shape: `json.loads` may give a single object or an array
(network_tab.py lines 301-303). -/
inductive ParsedJson where
  | obj (a : AdapterJson)
  | arr (l : List AdapterJson)
  deriving DecidableEq

/-- Embedding of the single-object-to-list normalization
(`if isinstance(adapters_data, dict): adapters_data = [adapters_data]`). -/
def jsonToList : ParsedJson → List AdapterJson
  | ParsedJson.obj a => [a]
  | ParsedJson.arr l => l

/-- In-memory adapter record stored in `self.network_adapters`
(network_tab.py lines 315-320). -/
structure AdapterInfo where
  name : String
  description : String
  status : String
  mac : String
  deriving DecidableEq

/-- Display label under which an adapter is keyed (network_tab.py lines
312-313). -/
def adapterDisplayName (name desc status : String) : String :=
  (if status == "Up" then "🟢" else "🔴") ++ " " ++ name ++ " - " ++ desc

/-- Entry added per adapter by `refresh_network_adapters` (network_tab.py
lines 305-321). -/
def adapterEntry (a : AdapterJson) : String × AdapterInfo :=
  (adapterDisplayName a.name a.interfaceDescription a.status,
   { name := a.name, description := a.interfaceDescription
     status := a.status, mac := a.macAddress })

/-- Entry added per adapter by `_get_all_adapters_fallback` (network_tab.py
lines 347-361): the fallback query selects no MAC address, so `mac` is the
empty string. -/
def adapterEntryFallback (a : AdapterJson) : String × AdapterInfo :=
  (adapterDisplayName a.name a.interfaceDescription a.status,
   { name := a.name, description := a.interfaceDescription
     status := a.status, mac := "" })

/-- Embedding of `_get_all_adapters_fallback` (network_tab.py lines
335-366).  `res` is the result of the unfiltered `Get-NetAdapter` query and
`parse` is the JSON decoding oracle (`none` models a decode exception).
On a failed or empty query, or a decode exception, the adapter list stays
empty. -/
def get_all_adapters_fallback (res : CmdResult)
    (parse : String → Option ParsedJson) : List (String × AdapterInfo) :=
  if res.success && !(strip res.stdout == "") then
    match parse res.stdout with
    | some pj => (jsonToList pj).map adapterEntryFallback
    | none => []
  else []

/-- Embedding of `refresh_network_adapters` (network_tab.py lines 275-333).
`prior` is the adapter list before the refresh (cleared on entry),
`filtered` and `fallback` are the results of the filtered and unfiltered
queries, and `parse` is the JSON decoding oracle.  The filtered query is
used when it succeeds with non-empty output and decodes; otherwise the
unfiltered fallback query populates the list. -/
def refresh_network_adapters (prior : List (String × AdapterInfo))
    (filtered fallback : CmdResult) (parse : String → Option ParsedJson) :
    List (String × AdapterInfo) :=
  let _ := prior
  if filtered.success && !(strip filtered.stdout == "") then
    match parse filtered.stdout with
    | some pj => (jsonToList pj).map adapterEntry
    | none => get_all_adapters_fallback fallback parse
  else get_all_adapters_fallback fallback parse

/-- A registry query that reports the value as not found rather than the
location as inaccessible, in the two ways `get_smb_insecure_guest_auth`
recognizes (powershell.py lines 277-287): a successful query whose output
carries neither hexadecimal token, or a failed query whose error or output
text mentions `unable to find`. -/
def regValueMissing (r : CmdResult) : Bool :=
  (r.success && !(strContains r.stdout "0x1") && !(strContains r.stdout "0x0"))
  || (!r.success &&
      (strContains (strLower r.stderr) "unable to find" ||
       strContains (strLower r.stdout) "unable to find"))

/-- Environment in which the primary set command fails while the verifying
read already reports the desired value true. -/
def guestCounterEnv : GuestEnv :=
  { setRes := { success := false, stdout := "", stderr := "Access is denied." }
  , verifyRes := { success := true, stdout := "True", stderr := "" }
  , regWriteGpo := { success := true, stdout := "", stderr := "" }
  , regWriteNormal := { success := true, stdout := "", stderr := "" }
  , regReadGpo := { success := true, stdout := "", stderr := "" }
  , regReadNormal := { success := true, stdout := "", stderr := "" } }

/-- Environment in which the primary set command fails and the verifying
read also fails. -/
def guestFailEnv : GuestEnv :=
  { setRes := { success := false, stdout := "", stderr := "Access is denied." }
  , verifyRes := { success := false, stdout := "", stderr := "Access is denied." }
  , regWriteGpo := { success := true, stdout := "", stderr := "" }
  , regWriteNormal := { success := true, stdout := "", stderr := "" }
  , regReadGpo :=
      { success := true
        stdout := "    AllowInsecureGuestAuth    REG_DWORD    0x1"
        stderr := "" }
  , regReadNormal := { success := true, stdout := "", stderr := "" } }

/-- Environment in which the primary set command succeeds but the verifying
read fails, while the registry path succeeds and verifies. -/
def guestUnverifiedEnv : GuestEnv :=
  { setRes := { success := true, stdout := "", stderr := "" }
  , verifyRes :=
      { success := false, stdout := ""
        stderr := "The term is not recognized as the name of a cmdlet" }
  , regWriteGpo :=
      { success := true
        stdout := "The operation completed successfully.", stderr := "" }
  , regWriteNormal :=
      { success := true
        stdout := "The operation completed successfully.", stderr := "" }
  , regReadGpo :=
      { success := true
        stdout := "    AllowInsecureGuestAuth    REG_DWORD    0x1"
        stderr := "" }
  , regReadNormal := { success := true, stdout := "", stderr := "" } }

/-- A leading segment of a list is still a leading segment after extending
the list on the right. -/
theorem chStarts_append (p s t : List Char) (h : chStarts p s = true) :
    chStarts p (s ++ t) = true := by
  induction p generalizing s with
  | nil => rfl
  | cons a as ih =>
    cases s with
    | nil => simp [chStarts] at h
    | cons b bs =>
      simp only [chStarts, Bool.and_eq_true] at h
      simp only [List.cons_append, chStarts, Bool.and_eq_true]
      exact ⟨h.1, ih bs h.2⟩

/-- A leading segment is in particular a substring. -/
theorem chHasSub_of_chStarts (s p : List Char) (h : chStarts p s = true) :
    chHasSub s p = true := by
  cases s with
  | nil =>
    cases p with
    | nil => rfl
    | cons a as => simp [chStarts] at h
  | cons c rest =>
    show (chStarts p (c :: rest) || chHasSub rest p) = true
    rw [h, Bool.true_or]

/-- The empty pattern is a substring of every list. -/
theorem chHasSub_nilpat (t : List Char) : chHasSub t [] = true := by
  cases t with
  | nil => rfl
  | cons c rest => rfl

/-- A substring of the right part is a substring of the whole. -/
theorem chHasSub_append_right (s t p : List Char) (h : chHasSub t p = true) :
    chHasSub (s ++ t) p = true := by
  induction s with
  | nil => simpa using h
  | cons c rest ih =>
    rw [List.cons_append]
    show (chStarts p (c :: (rest ++ t)) || chHasSub (rest ++ t) p) = true
    rw [ih, Bool.or_true]

/-- A substring of the left part is a substring of the whole. -/
theorem chHasSub_append_left (s t p : List Char) (h : chHasSub s p = true) :
    chHasSub (s ++ t) p = true := by
  induction s with
  | nil =>
    cases p with
    | nil => simpa using chHasSub_nilpat t
    | cons a as => simp [chHasSub] at h
  | cons c rest ih =>
    rw [List.cons_append]
    have h2 : (chStarts p (c :: rest) || chHasSub rest p) = true := h
    show (chStarts p (c :: (rest ++ t)) || chHasSub (rest ++ t) p) = true
    rcases Bool.or_eq_true_iff.mp h2 with h3 | h3
    · have h4 := chStarts_append p (c :: rest) t h3
      rw [List.cons_append] at h4
      rw [h4, Bool.true_or]
    · rw [ih h3, Bool.or_true]

/-- A pattern that leads the left-hand string occurs in the appended
string. -/
theorem strContains_prefix_append (lit x p : String)
    (h : chStarts p.data lit.data = true) : strContains (lit ++ x) p = true := by
  unfold strContains
  rw [String.data_append]
  exact chHasSub_of_chStarts _ _ (chStarts_append _ _ _ h)

/-- A pattern occurring in the left-hand string occurs in the appended
string. -/
theorem strContains_append_left (s t p : String)
    (h : strContains s p = true) : strContains (s ++ t) p = true := by
  unfold strContains at h ⊢
  rw [String.data_append]
  exact chHasSub_append_left _ _ _ h

/-- A pattern occurring in the right-hand string occurs in the appended
string. -/
theorem strContains_append_right (s t p : String)
    (h : strContains t p = true) : strContains (s ++ t) p = true := by
  unfold strContains at h ⊢
  rw [String.data_append]
  exact chHasSub_append_right _ _ _ h

/-- The two registry write command lines of the guest secondary path are
invocations of the registry tool. -/
theorem guest_reg_cmds_invoked (checked : Bool) :
    ((set_smb_guest_cmds checked).map Ev.cmd).any isRegistryCmd = true := by
  cases checked <;> decide

/-- The stream normalization of the runners equals stripping the stream
with an absent stream read as empty. -/
theorem stripOpt_eq (o : Option String) : stripOpt o = strip (o.getD "") := by
  cases o with
  | none => decide
  | some s =>
    by_cases h : s = ""
    · subst h; decide
    · simp [stripOpt, h]

/-- Whenever the verifying read after the primary set does not confirm the
desired value, the guest handler proceeds to the registry path. -/
theorem guest_fallback_reg (checked : Bool) (env : GuestEnv)
    (h : (env.verifyRes.success && (parseBool env.verifyRes.stdout == checked)) = false) :
    registryInvoked (guestTrace checked env).1 = true := by
  have hr := guest_reg_cmds_invoked checked
  unfold guestTrace
  rw [h]
  simp only [Bool.false_eq_true, if_false]
  split
  · split <;> simp [registryInvoked, List.any_append, hr]
  · simp [registryInvoked, List.any_append, hr]

/-- Mapping command events over any list yields only guarded events. -/
theorem all_cmds_guarded (l : List String) :
    (l.map Ev.cmd).all isGuardedSet = true := by
  induction l with
  | nil => rfl
  | cons c rest ih => simp [List.all_cons, isGuardedSet, ih]

/-- No run of the client-signature handler invokes the registry tool. -/
theorem client_no_registry (checked : Bool) (cenv : SigEnv) :
    registryInvoked (clientSigTrace checked cenv).1 = false := by
  unfold clientSigTrace
  split <;> (try split) <;> (try split) <;> cases checked <;>
    simp only [registryInvoked, List.any_cons, List.any_nil, isRegistryCmd,
      Bool.or_false] <;> decide

/-- No run of the server-signature handler invokes the registry tool. -/
theorem server_no_registry (checked : Bool) (senv : SigEnv) :
    registryInvoked (serverSigTrace checked senv).1 = false := by
  unfold serverSigTrace
  split <;> (try split) <;> (try split) <;> cases checked <;>
    simp only [registryInvoked, List.any_cons, List.any_nil, isRegistryCmd,
      Bool.or_false] <;> decide

/-- Claim C3: when the Group Policy location query for the guest-logon
setting succeeds and its output carries the `0x1` token, the read reports
success with value true whatever the local location holds, and the local
location is not even queried. -/
theorem guest_get_gpo_priority (gpo normal : CmdResult)
    (h1 : gpo.success = true) (h2 : strContains gpo.stdout "0x1" = true) :
    get_smb_insecure_guest_auth gpo normal = (true, true, "")
  ∧ get_smb_guest_cmds gpo
      = [get_registry_value_cmd guestGpoKeyPath guestValueName] := by
  constructor
  · unfold get_smb_insecure_guest_auth
    rw [h1, h2]
    simp
  · unfold get_smb_guest_cmds
    rw [h1, h2]
    simp

/-- Witness for claim C3 at a concrete pair of registry query results. -/
theorem guest_get_gpo_priority_witness :
    ({ success := true
       stdout := "    AllowInsecureGuestAuth    REG_DWORD    0x1"
       stderr := "" } : CmdResult).success = true
  ∧ strContains "    AllowInsecureGuestAuth    REG_DWORD    0x1" "0x1" = true
  ∧ get_smb_insecure_guest_auth
      { success := true
        stdout := "    AllowInsecureGuestAuth    REG_DWORD    0x1"
        stderr := "" }
      { success := true
        stdout := "    AllowInsecureGuestAuth    REG_DWORD    0x0"
        stderr := "" }
      = (true, true, "") :=
  ⟨rfl, by decide, (guest_get_gpo_priority _ _ rfl (by decide)).1⟩

/-- Claim C4: when neither guest-logon registry location holds a value,
each query reporting the value as not found rather than the location as
inaccessible, the read returns success with the documented default value
false, not an error. -/
theorem guest_get_absent_default (gpo normal : CmdResult)
    (h1 : regValueMissing gpo = true) (h2 : regValueMissing normal = true) :
    get_smb_insecure_guest_auth gpo normal = (true, false, "") := by
  unfold regValueMissing at h1 h2
  unfold get_smb_insecure_guest_auth
  have hguard : (gpo.success &&
      (strContains gpo.stdout "0x1" || strContains gpo.stdout "0x0")) = false := by
    cases hgs : gpo.success with
    | false => simp
    | true =>
      rw [hgs] at h1
      simp at h1
      simp [h1.1, h1.2]
  rw [hguard]
  simp only [Bool.false_eq_true, if_false]
  cases hns : normal.success with
  | true =>
    rw [hns] at h2
    simp at h2
    simp [h2.1, h2.2]
  | false =>
    rw [hns] at h2
    simp at h2
    rcases h2 with h | h <;> simp [h]

/-- Witness for claim C4 at a concrete pair of registry query results. -/
theorem guest_get_absent_default_witness :
    regValueMissing
      { success := false, stdout := ""
        stderr := "ERROR: The system was unable to find the specified registry key or value." } = true
  ∧ get_smb_insecure_guest_auth
      { success := false, stdout := ""
        stderr := "ERROR: The system was unable to find the specified registry key or value." }
      { success := false, stdout := ""
        stderr := "ERROR: The system was unable to find the specified registry key or value." }
      = (true, false, "") :=
  ⟨by decide, guest_get_absent_default _ _ (by decide) (by decide)⟩

/-- Claim C6 (amended): both runners turn every invocation failure into a
result value with success false; a missing PowerShell host has a dedicated
branch yielding the PowerShell not-found message, a timeout yields the
timeout-specific message in either runner, and any other invocation error
— which for the cmd runner includes a missing interpreter, since it has no
dedicated not-found branch — yields the generic error description. -/
theorem runner_error_results (t : Nat) (m : String) :
    run_powershell_command t ProcOutcome.timedOut
      = { success := false, stdout := ""
          stderr := "Command timed out after " ++ toString t ++ " seconds" }
  ∧ strContains (run_powershell_command t ProcOutcome.timedOut).stderr
      "timed out" = true
  ∧ run_powershell_command t (ProcOutcome.fileNotFound m)
      = { success := false, stdout := ""
          stderr := "PowerShell not found on this system" }
  ∧ strContains (run_powershell_command t (ProcOutcome.fileNotFound m)).stderr
      "not found" = true
  ∧ run_powershell_command t (ProcOutcome.otherError m)
      = { success := false, stdout := ""
          stderr := "Error executing command: " ++ m }
  ∧ run_cmd_command t ProcOutcome.timedOut
      = { success := false, stdout := ""
          stderr := "Command timed out after " ++ toString t ++ " seconds" }
  ∧ run_cmd_command t (ProcOutcome.fileNotFound m)
      = { success := false, stdout := ""
          stderr := "Error executing command: " ++ m }
  ∧ run_cmd_command t (ProcOutcome.otherError m)
      = { success := false, stdout := ""
          stderr := "Error executing command: " ++ m } := by
  refine ⟨rfl, ?_, rfl, ?_, rfl, rfl, rfl, rfl⟩
  · show strContains (("Command timed out after " ++ toString t) ++ " seconds")
      "timed out" = true
    apply strContains_append_left
    apply strContains_append_left
    decide
  · show strContains "PowerShell not found on this system" "not found" = true
    decide

/-- Claim C6 is refuted as stated: a missing interpreter for the cmd runner
is caught by the generic exception branch, so its stderr is the generic
error description carrying the text of the raised exception, not a
dedicated not-found message. -/
theorem runner_notfound_counterexample :
    (run_cmd_command 30 (ProcOutcome.fileNotFound
        "[WinError 2] The system cannot find the file specified")).success = false
  ∧ strContains (strLower (run_cmd_command 30 (ProcOutcome.fileNotFound
        "[WinError 2] The system cannot find the file specified")).stderr)
      "not found" = false := by
  exact ⟨rfl, by decide⟩

/-- Claim C7: on a normal process exit both runners report success exactly
when the exit code is zero, and return the captured streams with
surrounding whitespace stripped, an absent stream becoming the empty
string. -/
theorem runner_normal_exit (t : Nat) (rc : Int) (out err : Option String) :
    run_powershell_command t (ProcOutcome.exited rc out err)
      = { success := rc == 0, stdout := strip (out.getD "")
          stderr := strip (err.getD "") }
  ∧ run_cmd_command t (ProcOutcome.exited rc out err)
      = { success := rc == 0, stdout := strip (out.getD "")
          stderr := strip (err.getD "") } := by
  constructor
  · show ({ success := rc == 0, stdout := stripOpt out
            stderr := stripOpt err } : CmdResult) = _
    rw [stripOpt_eq, stripOpt_eq]
  · show ({ success := rc == 0, stdout := stripOpt out
            stderr := stripOpt err } : CmdResult) = _
    rw [stripOpt_eq, stripOpt_eq]

/-- Claim C5: the guest secondary path writes the boolean encoded as the
integer 1 or 0 with a force-overwrite `reg add` to the policy location and
then the local location, reports success exactly when the policy write
succeeds or, failing that, the local write succeeds, and the result text
names whichever location failed. -/
theorem guest_secondary_write (enabled : Bool) (r1 r2 : CmdResult) :
    (∀ c, c ∈ set_smb_guest_cmds enabled →
        strContains c ("/d " ++ (if enabled then "1" else "0") ++ " /f") = true)
  ∧ strContains ((set_smb_guest_cmds enabled).headD "") guestGpoKeyPath = true
  ∧ strContains ((set_smb_guest_cmds enabled).getLastD "") guestNormalKeyPath = true
  ∧ (set_smb_insecure_guest_auth enabled r1 r2).success = (r1.success || r2.success)
  ∧ (r1.success = false → r2.success = true →
        (set_smb_insecure_guest_auth enabled r1 r2).stderr
          = "GPO path not accessible, using normal registry only"
      ∧ strContains (set_smb_insecure_guest_auth enabled r1 r2).stdout
          "GPO registry failed" = true)
  ∧ (r1.success = true → r2.success = false →
        strContains (set_smb_insecure_guest_auth enabled r1 r2).stdout
          "Normal registry failed" = true)
  ∧ (r1.success = false → r2.success = false →
        strContains (set_smb_insecure_guest_auth enabled r1 r2).stderr
          "GPO registry failed" = true
      ∧ strContains (set_smb_insecure_guest_auth enabled r1 r2).stderr
          "Normal registry failed" = true) := by
  refine ⟨?_, ?_, ?_, ?_, ?_, ?_, ?_⟩
  · cases enabled <;> decide
  · cases enabled <;> decide
  · cases enabled <;> decide
  · cases h1 : r1.success <;> cases h2 : r2.success <;>
      simp [set_smb_insecure_guest_auth, h1, h2]
  · intro h1 h2
    constructor
    · simp [set_smb_insecure_guest_auth, h1, h2]
    · simp only [set_smb_insecure_guest_auth, h1, h2, Bool.false_eq_true,
        if_false, if_true]
      apply strContains_append_left
      apply strContains_append_left
      apply strContains_prefix_append
      decide
  · intro h1 h2
    simp only [set_smb_insecure_guest_auth, h1, h2, Bool.false_eq_true,
      if_false, if_true]
    apply strContains_append_right
    apply strContains_prefix_append
    decide
  · intro h1 h2
    simp only [set_smb_insecure_guest_auth, h1, h2, Bool.false_eq_true,
      if_false, if_true]
    constructor
    · apply strContains_append_left
      apply strContains_append_left
      apply strContains_prefix_append
      decide
    · apply strContains_append_right
      apply strContains_prefix_append
      decide

/-- Witness for claim C5: the policy write fails, the local write succeeds,
and the result is a success annotated with the failed location. -/
theorem guest_secondary_write_witness :
    ({ success := false, stdout := "", stderr := "Access is denied." } : CmdResult).success = false
  ∧ ({ success := true, stdout := "The operation completed successfully.", stderr := "" } : CmdResult).success = true
  ∧ (set_smb_insecure_guest_auth true
       { success := false, stdout := "", stderr := "Access is denied." }
       { success := true, stdout := "The operation completed successfully.", stderr := "" }).success = true
  ∧ (set_smb_insecure_guest_auth true
       { success := false, stdout := "", stderr := "Access is denied." }
       { success := true, stdout := "The operation completed successfully.", stderr := "" }).stderr
      = "GPO path not accessible, using normal registry only" := by
  obtain ⟨-, -, -, h4, h5, -, -⟩ :=
    guest_secondary_write true
      { success := false, stdout := "", stderr := "Access is denied." }
      { success := true, stdout := "The operation completed successfully.", stderr := "" }
  exact ⟨rfl, rfl, h4, (h5 rfl rfl).1⟩

/-- Claim C1 (amended): when the primary set command fails, the guest
handler still issues the verifying read and invokes the registry secondary
path whenever that read does not already report the desired value, while
the signature handlers terminate in FAILED at once, reverting the toggle
under the guard, and never invoke any registry command on any path. -/
theorem primary_fail_secondary_paths (checked : Bool) (genv : GuestEnv)
    (cenv senv : SigEnv) :
    (genv.setRes.success = false →
       (genv.verifyRes.success && (parseBool genv.verifyRes.stdout == checked)) = false →
       registryInvoked (guestTrace checked genv).1 = true)
  ∧ (cenv.setRes.success = false →
       clientSigTrace checked cenv
         = ([Ev.cmd (clientSigSetCmd checked), Ev.setChecked true (!checked)],
            ApplyOutcome.failed))
  ∧ (senv.setRes.success = false →
       serverSigTrace checked senv
         = ([Ev.cmd (serverSigSetCmd checked), Ev.setChecked true (!checked)],
            ApplyOutcome.failed))
  ∧ registryInvoked (clientSigTrace checked cenv).1 = false
  ∧ registryInvoked (serverSigTrace checked senv).1 = false := by
  refine ⟨fun _ h2 => guest_fallback_reg checked genv h2, ?_, ?_,
    client_no_registry checked cenv, server_no_registry checked senv⟩
  · intro h
    simp [clientSigTrace, h]
  · intro h
    simp [serverSigTrace, h]

/-- Witness for claim C1: a failed primary set with a failed verifying
read invokes the registry path for the guest setting, and terminates the
client-signature handler in FAILED. -/
theorem primary_fail_secondary_paths_witness :
    guestFailEnv.setRes.success = false
  ∧ (guestFailEnv.verifyRes.success &&
      (parseBool guestFailEnv.verifyRes.stdout == true)) = false
  ∧ registryInvoked (guestTrace true guestFailEnv).1 = true
  ∧ clientSigTrace true
      { setRes := { success := false, stdout := "", stderr := "Access is denied." }
      , verifyRes := { success := true, stdout := "False", stderr := "" } }
      = ([Ev.cmd (clientSigSetCmd true), Ev.setChecked true false],
         ApplyOutcome.failed) := by
  obtain ⟨hg, hc, -, -, -⟩ :=
    primary_fail_secondary_paths true guestFailEnv
      { setRes := { success := false, stdout := "", stderr := "Access is denied." }
      , verifyRes := { success := true, stdout := "False", stderr := "" } }
      { setRes := { success := true, stdout := "", stderr := "" }
      , verifyRes := { success := true, stdout := "True", stderr := "" } }
  exact ⟨rfl, by decide, hg rfl (by decide), hc rfl⟩

/-- Claim C1 is refuted as stated: in this environment the primary set
command fails, yet the guest handler reports APPLIED through the primary
path because the verifying read already shows the desired value, and the
registry secondary path is never invoked. -/
theorem primary_fail_counterexample :
    guestCounterEnv.setRes.success = false
  ∧ registryInvoked (guestTrace true guestCounterEnv).1 = false
  ∧ (guestTrace true guestCounterEnv).2 = ApplyOutcome.applied := by
  exact ⟨rfl, by decide, by decide⟩

/-- Claim C2 (amended): when the primary set succeeds but the verifying
read fails, the signature handlers report the operation as applied but
unverified, with no revert and no secondary path, while the guest handler
instead proceeds to the registry secondary path. -/
theorem get_fail_optimistic (checked : Bool) (cenv senv : SigEnv)
    (genv : GuestEnv) :
    (cenv.setRes.success = true → cenv.verifyRes.success = false →
       clientSigTrace checked cenv
         = ([Ev.cmd (clientSigSetCmd checked), Ev.cmd clientSigVerifyCmd],
            ApplyOutcome.appliedUnverified))
  ∧ (senv.setRes.success = true → senv.verifyRes.success = false →
       serverSigTrace checked senv
         = ([Ev.cmd (serverSigSetCmd checked), Ev.cmd serverSigVerifyCmd],
            ApplyOutcome.appliedUnverified))
  ∧ (genv.setRes.success = true → genv.verifyRes.success = false →
       registryInvoked (guestTrace checked genv).1 = true) := by
  refine ⟨?_, ?_, ?_⟩
  · intro h1 h2
    simp [clientSigTrace, h1, h2]
  · intro h1 h2
    simp [serverSigTrace, h1, h2]
  · intro _ h2
    apply guest_fallback_reg
    rw [h2]
    rfl

/-- Witness for claim C2: a successful set with a failed read-back is
reported applied-but-unverified by the client-signature handler and sends
the guest handler to the registry path. -/
theorem get_fail_optimistic_witness :
    guestUnverifiedEnv.setRes.success = true
  ∧ guestUnverifiedEnv.verifyRes.success = false
  ∧ clientSigTrace false
      { setRes := { success := true, stdout := "", stderr := "" }
      , verifyRes := { success := false, stdout := "", stderr := "timeout" } }
      = ([Ev.cmd (clientSigSetCmd false), Ev.cmd clientSigVerifyCmd],
         ApplyOutcome.appliedUnverified)
  ∧ registryInvoked (guestTrace false guestUnverifiedEnv).1 = true := by
  obtain ⟨hc, -, hg⟩ :=
    get_fail_optimistic false
      { setRes := { success := true, stdout := "", stderr := "" }
      , verifyRes := { success := false, stdout := "", stderr := "timeout" } }
      { setRes := { success := true, stdout := "", stderr := "" }
      , verifyRes := { success := true, stdout := "True", stderr := "" } }
      guestUnverifiedEnv
  exact ⟨rfl, rfl, hc rfl rfl, hg rfl rfl⟩

/-- Claim C2 is refuted as stated: in this environment the guest primary
set succeeds and the read-back fails, yet the handler is routed to the
registry secondary path instead of reporting an unverified success. -/
theorem get_fail_counterexample :
    guestUnverifiedEnv.setRes.success = true
  ∧ guestUnverifiedEnv.verifyRes.success = false
  ∧ registryInvoked (guestTrace true guestUnverifiedEnv).1 = true
  ∧ (guestTrace true guestUnverifiedEnv).2 = ApplyOutcome.appliedRegistry := by
  exact ⟨rfl, rfl, by decide, by decide⟩

/-- Claim C8: when the primary set of a signature setting succeeds but the
read-back reports the opposite value, the handler terminates in FAILED and
sets the toggle, under the guard, to the value the system reported rather
than the desired one. -/
theorem sig_mismatch_failed (checked : Bool) (cenv senv : SigEnv)
    (hc1 : cenv.setRes.success = true) (hc2 : cenv.verifyRes.success = true)
    (hc3 : parseBool cenv.verifyRes.stdout = !checked)
    (hs1 : senv.setRes.success = true) (hs2 : senv.verifyRes.success = true)
    (hs3 : parseBool senv.verifyRes.stdout = !checked) :
    clientSigTrace checked cenv
      = ([Ev.cmd (clientSigSetCmd checked), Ev.cmd clientSigVerifyCmd,
          Ev.setChecked true (parseBool cenv.verifyRes.stdout)],
         ApplyOutcome.failed)
  ∧ serverSigTrace checked senv
      = ([Ev.cmd (serverSigSetCmd checked), Ev.cmd serverSigVerifyCmd,
          Ev.setChecked true (parseBool senv.verifyRes.stdout)],
         ApplyOutcome.failed)
  ∧ parseBool cenv.verifyRes.stdout ≠ checked
  ∧ parseBool senv.verifyRes.stdout ≠ checked := by
  have hbeq : ((!checked) == checked) = false := by
    cases checked <;> rfl
  refine ⟨?_, ?_, ?_, ?_⟩
  · simp [clientSigTrace, hc1, hc2, hc3, hbeq]
  · simp [serverSigTrace, hs1, hs2, hs3, hbeq]
  · rw [hc3]
    exact Bool.not_ne_self checked
  · rw [hs3]
    exact Bool.not_ne_self checked

/-- Witness for claim C8: requesting true while the system reports back
False fails and leaves the toggle at the reported value false. -/
theorem sig_mismatch_failed_witness :
    ({ setRes := { success := true, stdout := "", stderr := "" }
     , verifyRes := { success := true, stdout := "False", stderr := "" } } : SigEnv).setRes.success = true
  ∧ parseBool "False" = !true
  ∧ clientSigTrace true
      { setRes := { success := true, stdout := "", stderr := "" }
      , verifyRes := { success := true, stdout := "False", stderr := "" } }
      = ([Ev.cmd (clientSigSetCmd true), Ev.cmd clientSigVerifyCmd,
          Ev.setChecked true (parseBool "False")],
         ApplyOutcome.failed)
  ∧ serverSigTrace true
      { setRes := { success := true, stdout := "", stderr := "" }
      , verifyRes := { success := true, stdout := "False", stderr := "" } }
      = ([Ev.cmd (serverSigSetCmd true), Ev.cmd serverSigVerifyCmd,
          Ev.setChecked true (parseBool "False")],
         ApplyOutcome.failed) := by
  obtain ⟨hc, hs, -, -⟩ :=
    sig_mismatch_failed true
      { setRes := { success := true, stdout := "", stderr := "" }
      , verifyRes := { success := true, stdout := "False", stderr := "" } }
      { setRes := { success := true, stdout := "", stderr := "" }
      , verifyRes := { success := true, stdout := "False", stderr := "" } }
      rfl rfl (by decide) rfl rfl (by decide)
  exact ⟨rfl, by decide, hc, hs⟩

/-- Claim C9: an empty-output filtered adapter query, or one whose
structured output fails to decode, makes the refresh fall back to the
unfiltered query, whose adapters all populate the list; and the produced
adapter list never depends on the list held before the refresh. -/
theorem adapter_refresh_fallback (prior : List (String × AdapterInfo))
    (filtered fallback : CmdResult) (parse : String → Option ParsedJson) :
    (strip filtered.stdout = "" →
       refresh_network_adapters prior filtered fallback parse
         = get_all_adapters_fallback fallback parse)
  ∧ (parse filtered.stdout = none →
       refresh_network_adapters prior filtered fallback parse
         = get_all_adapters_fallback fallback parse)
  ∧ (∀ pj, fallback.success = true → parse fallback.stdout = some pj →
       ¬ (strip fallback.stdout = "") →
       get_all_adapters_fallback fallback parse
         = (jsonToList pj).map adapterEntryFallback)
  ∧ refresh_network_adapters prior filtered fallback parse
      = refresh_network_adapters [] filtered fallback parse := by
  refine ⟨?_, ?_, ?_, rfl⟩
  · intro h
    simp [refresh_network_adapters, h]
  · intro h
    unfold refresh_network_adapters
    split
    · rw [h]
    · rfl
  · intro pj h1 h2 h3
    simp [get_all_adapters_fallback, h1, h2, h3]

/-- Witness for claim C9: with an empty filtered query and a one-adapter
unfiltered query, the refresh discards the prior list and returns that
adapter. -/
theorem adapter_refresh_fallback_witness :
    strip ("" : String) = ""
  ∧ refresh_network_adapters
      [("stale", { name := "stale", description := "", status := "", mac := "" })]
      { success := true, stdout := "", stderr := "" }
      { success := true, stdout := "netjson", stderr := "" }
      (fun s => if s == "netjson"
        then some (ParsedJson.arr
          [{ name := "Ethernet", interfaceDescription := "Intel(R) Ethernet"
             status := "Up", macAddress := "AA-BB-CC-DD-EE-FF" }])
        else none)
      = [adapterEntryFallback
          { name := "Ethernet", interfaceDescription := "Intel(R) Ethernet"
            status := "Up", macAddress := "AA-BB-CC-DD-EE-FF" }] := by
  obtain ⟨h1, -, h3, -⟩ :=
    adapter_refresh_fallback
      [("stale", { name := "stale", description := "", status := "", mac := "" })]
      { success := true, stdout := "", stderr := "" }
      { success := true, stdout := "netjson", stderr := "" }
      (fun s => if s == "netjson"
        then some (ParsedJson.arr
          [{ name := "Ethernet", interfaceDescription := "Intel(R) Ethernet"
             status := "Up", macAddress := "AA-BB-CC-DD-EE-FF" }])
        else none)
  refine ⟨by decide, ?_⟩
  rw [h1 (by decide)]
  rw [h3 (ParsedJson.arr
      [{ name := "Ethernet", interfaceDescription := "Intel(R) Ethernet"
         status := "Up", macAddress := "AA-BB-CC-DD-EE-FF" }])
    rfl (by decide) (by decide)]
  rfl

/-- Claim C10: each toggle handler returns at once, issuing no command,
while the loading guard is raised, and every programmatic toggle set that
any handler performs happens with the guard raised, so a revert re-enters
a handler that does nothing. -/
theorem revert_guarded_no_commands (checked : Bool) (genv : GuestEnv)
    (cenv senv : SigEnv) :
    on_guest_toggle_changed true checked genv = none
  ∧ on_client_sig_toggle_changed true checked cenv = none
  ∧ on_server_sig_toggle_changed true checked senv = none
  ∧ revertsGuarded (guestTrace checked genv).1 = true
  ∧ revertsGuarded (clientSigTrace checked cenv).1 = true
  ∧ revertsGuarded (serverSigTrace checked senv).1 = true := by
  refine ⟨rfl, rfl, rfl, ?_, ?_, ?_⟩
  · unfold guestTrace
    dsimp only
    split
    · simp [revertsGuarded, isGuardedSet]
    · split
      · split <;>
          simp [revertsGuarded, List.all_append, isGuardedSet, all_cmds_guarded]
      · simp [revertsGuarded, List.all_append, isGuardedSet, all_cmds_guarded]
  · unfold clientSigTrace
    split <;> (try split) <;> (try split) <;>
      simp [revertsGuarded, isGuardedSet]
  · unfold serverSigTrace
    split <;> (try split) <;> (try split) <;>
      simp [revertsGuarded, isGuardedSet]
